import Mathlib

/-!
Verification of the go-http client library (contacts pagination, request
execution, message sending) against its natural-language specification.

The definitions below are a shallow embedding of the Python source:

  * the HTTP transport and the JSON decoder are external collaborators, so
    they appear as function arguments (a transport maps a request to a
    response; each response carries the result the JSON library would
    produce for its body);
  * `raiseForStatus` mirrors requests' `Response.raise_for_status`, which
    raises exactly for status codes in [400, 600);
  * the `contacts` generator of `ContactsApiClient.contacts` is embedded as
    an explicit state machine (`GenState`, `genNext`): a Python generator
    runs no code at call time, suspends at every `yield`, and one `next()`
    call may perform several page fetches when pages are empty.  A fuel
    parameter bounds the page fetches inside one `next()` call and a step
    count bounds the number of `next()` calls, since the loop in the source
    is unbounded.
-/

namespace GoHttp

/-- Errors surfaced by one API request: a non-2xx-class HTTP status
(`requests.HTTPError` from `raise_for_status`), a transport-level failure,
or a JSON decode failure from `r.json()`. -/
inductive ApiError where
  | httpError (status : Nat) (body : String)
  | networkError (msg : String)
  | decodeError (msg : String)
deriving DecidableEq

instance exceptDecEq {ε α : Type} [DecidableEq ε] [DecidableEq α] :
    DecidableEq (Except ε α)
  | .ok a, .ok b =>
    if h : a = b then isTrue (by rw [h]) else isFalse (fun he => h (by injection he))
  | .ok _, .error _ => isFalse (fun he => Except.noConfusion he)
  | .error _, .ok _ => isFalse (fun he => Except.noConfusion he)
  | .error a, .error b =>
    if h : a = b then isTrue (by rw [h]) else isFalse (fun he => h (by injection he))

/-- A transport response: status code, raw body, and the value the external
JSON library yields when parsing the body (`Except.error` when the body is
not valid JSON). -/
structure HttpResponse (β : Type) where
  status : Nat
  rawBody : String
  jsonBody : Except String β
deriving DecidableEq

/-- `requests.Response.raise_for_status`: raises an `HTTPError` exactly when
the status code lies in [400, 600). -/
def raiseForStatus {β : Type} (r : HttpResponse β) : Except ApiError Unit :=
  if 400 ≤ r.status ∧ r.status < 600 then
    .error (.httpError r.status r.rawBody)
  else
    .ok ()

/-- `r.json()`: the parse result of the body, with a parse failure mapped to
a decode error. -/
def decodeBody {β : Type} (r : HttpResponse β) : Except ApiError β :=
  match r.jsonBody with
  | .error m => .error (.decodeError m)
  | .ok v => .ok v

/-- The response half of `ContactsApiClient._api_request` (contacts.py lines
53 to 54): `r.raise_for_status()` followed by `return r.json()`. -/
def apiRespond {β : Type} (r : HttpResponse β) : Except ApiError β :=
  match raiseForStatus r with
  | .error e => .error e
  | .ok _ => decodeBody r

/-- One full request execution: a network failure from the transport is
surfaced as-is, otherwise the response is handled by `apiRespond`. -/
def apiRequest {β : Type} (resp : Except String (HttpResponse β)) : Except ApiError β :=
  match resp with
  | .error m => .error (.networkError m)
  | .ok r => apiRespond r

/-- Python `s.rstrip('/')`: removes every trailing slash character. -/
def rstripSlash (s : String) : String :=
  ⟨(s.data.reverse.dropWhile (fun c => c == '/')).reverse⟩

/-- The default API URL from `ContactsApiClient.__init__`. -/
def defaultApiUrl : String := "http://go.vumi.org/api/v1/go"

/-- The state a `ContactsApiClient` holds after `__init__` (the session is a
transport collaborator and is not part of the embedded state). -/
structure ContactsApiClient where
  auth_token : String
  api_url : String
deriving DecidableEq

/-- `ContactsApiClient.__init__`: substitute the default URL when none is
given, then store `api_url.rstrip('/')`. -/
def mkContactsApiClient (auth_token : String) (api_url : Option String) : ContactsApiClient :=
  { auth_token := auth_token, api_url := rstripSlash (api_url.getD defaultApiUrl) }

/-- URL construction in `_api_request`:
`"%s/%s/%s" % (self.api_url, api_collection, api_path)`. -/
def apiRequestUrl (c : ContactsApiClient) (api_collection api_path : String) : String :=
  c.api_url ++ "/" ++ api_collection ++ "/" ++ api_path

/-- The api_path built for a cursor in `contacts`:
`"?cursor=%s" % cursor` — plain interpolation, no URL escaping. -/
def cursorQueryPath (cursor : String) : String :=
  "?cursor=" ++ cursor

/-- The cursor query parameter actually sent for a start cursor supplied to
`contacts`: the source tests `if start_cursor:` (Python truthiness), so
`None` and the empty string both yield a request with no cursor. -/
def startParam : Option String → Option String
  | none => none
  | some s => if s = "" then none else some s

/-- The api_path corresponding to a cursor parameter. -/
def pathOfParam : Option String → String
  | none => ""
  | some c => cursorQueryPath c

/-- The full URL of one page request of `contacts`. -/
def contactsPageUrl (c : ContactsApiClient) (p : Option String) : String :=
  apiRequestUrl c "contacts" (pathOfParam p)

/-- Modelled from the spec: "URL-escaped opaque string" — the standard
percent-encoding of urllib, written here only to compare it against the
plain interpolation the source actually performs.  Unreserved characters
(letters, digits, `-`, `.`, `_`, `~`) pass through; every other character is
percent-encoded byte-by-byte from its UTF-8 encoding, uppercase hex. -/
def utf8ByteVals (n : Nat) : List Nat :=
  if n < 128 then [n]
  else if n < 2048 then [192 + n / 64, 128 + n % 64]
  else if n < 65536 then [224 + n / 4096, 128 + n / 64 % 64, 128 + n % 64]
  else [240 + n / 262144, 128 + n / 4096 % 64, 128 + n / 64 % 64, 128 + n % 64]

/-- Uppercase hexadecimal digit. -/
def hexDigitU (n : Nat) : Char :=
  if n < 10 then Char.ofNat (48 + n) else Char.ofNat (55 + n)

/-- Modelled from the spec: percent-encoding of a single character. -/
def urlQuoteChar (c : Char) : List Char :=
  if ('A' ≤ c ∧ c ≤ 'Z') ∨ ('a' ≤ c ∧ c ≤ 'z') ∨ ('0' ≤ c ∧ c ≤ '9')
      ∨ c = '-' ∨ c = '.' ∨ c = '_' ∨ c = '~' then
    [c]
  else
    (utf8ByteVals c.toNat).flatMap (fun b => ['%', hexDigitU (b / 16), hexDigitU (b % 16)])

/-- Modelled from the spec: URL escaping of a whole string. -/
def urlQuote (s : String) : String :=
  ⟨s.data.flatMap urlQuoteChar⟩

/-- One decoded page of the paginated contacts listing: the `data` list and
the `cursor` field of the response JSON. -/
structure PageJson (α : Type) where
  data : List α
  cursor : Option String
deriving DecidableEq

/-- The suspension states of the `contacts` generator: not yet started
(Python runs none of the body at call time), suspended inside the
`for contact in page['data']` loop with the items not yet yielded and the
current page cursor, or finished (ran off the end or raised). -/
inductive GenState (α : Type) where
  | unstarted (start_cursor : Option String)
  | yielding (pending : List α) (cursor : Option String)
  | finished
deriving DecidableEq

/-- What one `next()` call on the generator produces. -/
inductive NextOut (α : Type) where
  | yielded (a : α)
  | stopIter
  | raised (e : ApiError)
  | fuelOut
deriving DecidableEq

/-- The generator body between two yields, starting from "the current page
has `pending` items left to yield and cursor `cur`": yield the next pending
item; else stop if the cursor is null; else fetch the next page and continue
(possibly across several consecutive empty pages, bounded by `fuel`).
Returns the cursor parameters of the page requests made, the outcome, and
the next suspension state. -/
def emitOrAdvance {α : Type} (fetch : Option String → Except ApiError (PageJson α))
    (fuel : Nat) (pending : List α) (cur : Option String) :
    List (Option String) × NextOut α × GenState α :=
  match pending with
  | a :: rest => ([], .yielded a, .yielding rest cur)
  | [] =>
    match cur with
    | none => ([], .stopIter, .finished)
    | some c =>
      match fuel with
      | 0 => ([], .fuelOut, .finished)
      | fuel' + 1 =>
        match fetch (some c) with
        | .error e => ([some c], .raised e, .finished)
        | .ok page =>
          let r := emitOrAdvance fetch fuel' page.data page.cursor
          (some c :: r.1, r.2)

/-- One `next()` call on the `contacts` generator.  From the unstarted state
this runs the top of the body: the truthiness branch on `start_cursor`
selects the first request's cursor parameter; a fetch failure propagates the
underlying error unwrapped (the source has no try/except around the
requests). -/
def genNext {α : Type} (fetch : Option String → Except ApiError (PageJson α))
    (fuel : Nat) (st : GenState α) :
    List (Option String) × NextOut α × GenState α :=
  match st with
  | .unstarted sc =>
    match fetch (startParam sc) with
    | .error e => ([startParam sc], .raised e, .finished)
    | .ok page =>
      let r := emitOrAdvance fetch fuel page.data page.cursor
      (startParam sc :: r.1, r.2)
  | .yielding pending cur => emitOrAdvance fetch fuel pending cur
  | .finished => ([], .stopIter, .finished)

/-- How a full consumption of the generator ends. -/
inductive RunOut where
  | completed
  | failed (e : ApiError)
  | fuelOut
deriving DecidableEq

/-- Drive the generator with repeated `next()` calls until it stops or a
fetch fails, collecting the yielded items and the cursor parameters of every
page request in order. -/
def runGen {α : Type} (fetch : Option String → Except ApiError (PageJson α))
    (fuel : Nat) (steps : Nat) (st : GenState α) :
    List α × List (Option String) × RunOut :=
  match steps with
  | 0 => ([], [], .fuelOut)
  | steps' + 1 =>
    match genNext fetch fuel st with
    | (reqs, .yielded a, st2) =>
      match runGen fetch fuel steps' st2 with
      | (items, reqs2, res) => (a :: items, reqs ++ reqs2, res)
    | (reqs, .stopIter, _) => ([], reqs, .completed)
    | (reqs, .raised e, _) => ([], reqs, .failed e)
    | (reqs, .fuelOut, _) => ([], reqs, .fuelOut)

/-- Calling `client.contacts(start_cursor)` creates the generator without
running any of its body (and so without any page request). -/
def contacts {α : Type} (start_cursor : Option String) : GenState α :=
  .unstarted start_cursor

/-- A server serving a correctly chained tail of pages when the enumeration
stands just after a page whose cursor field is `cur`: the chain is finished
exactly when `cur` is null, and otherwise `cur` names the next page, whose
own cursor chains the rest. -/
def TailChain {α : Type} (fetch : Option String → Except ApiError (PageJson α)) :
    Option String → List (PageJson α) → Prop
  | none, [] => True
  | some _, [] => False
  | none, _ :: _ => False
  | some c, pg :: rest => fetch (some c) = .ok pg ∧ TailChain fetch pg.cursor rest

/-- A server serving the full correctly chained sequence `pages` when the
first request is made with cursor parameter `p`. -/
def ServesFrom {α : Type} (fetch : Option String → Except ApiError (PageJson α))
    (p : Option String) : List (PageJson α) → Prop
  | [] => False
  | pg :: rest => fetch p = .ok pg ∧ TailChain fetch pg.cursor rest

/-- The cursor parameters of the page requests for a chained sequence of
pages entered with parameter `cur`: each page is requested with the cursor
returned by its predecessor. -/
def tailParams {α : Type} : Option String → List (PageJson α) → List (Option String)
  | _, [] => []
  | cur, pg :: rest => cur :: tailParams pg.cursor rest

/-- What `emitOrAdvance` produces on an exhausted page over a chained
server: either every remaining page is empty and the enumeration stops after
requesting them all, or the first non-empty remaining page yields its head
item. -/
def chainEmit {α : Type} : Option String → List (PageJson α) →
    List (Option String) × NextOut α × GenState α
  | _, [] => ([], .stopIter, .finished)
  | cur, pg :: rest =>
    match pg.data with
    | a :: tl => ([cur], .yielded a, .yielding tl pg.cursor)
    | [] =>
      let r := chainEmit pg.cursor rest
      (cur :: r.1, r.2)

/-- The outcome of `get_contact_from_field`: the first record of the
response `data` list, a Python `IndexError` when that list is empty, a
Python `TypeError` when the response has no `data` key (`None[0]`), or a
propagated request error. -/
inductive LookupOutcome (α : Type) where
  | found (a : α)
  | indexError
  | typeError
  | apiError (e : ApiError)
deriving DecidableEq

/-- `ContactsApiClient.get_contact_from_field`: one GET on the contacts
collection with query parameter `query = "<field>=<value>"`, returning
`contact.get('data')[0]`.  The first component lists the query parameter
sets of the requests made (exactly one). -/
def get_contact_from_field {α : Type}
    (doRequest : List (String × String) → Except ApiError (Option (List α)))
    (fld value : String) :
    List (List (String × String)) × LookupOutcome α :=
  let params := [("query", fld ++ "=" ++ value)]
  ([params],
    match doRequest params with
    | .error e => .apiError e
    | .ok none => .typeError
    | .ok (some []) => .indexError
    | .ok (some (a :: _)) => .found a)

/-- The state a `Sender` holds after `__init__` (no rstrip is applied to its
api_url). -/
structure Sender where
  api_url : String
  account_key : String
  conversation_key : String
  conversation_token : String
deriving DecidableEq

/-- An outgoing HTTP request as the client constructs it: method, URL, the
basic-auth pair passed via `auth=`, the bearer token passed via an
`Authorization` header, and the serialized body. -/
structure SentRequest where
  method : String
  url : String
  basicAuth : Option (String × String)
  bearerToken : Option String
  body : Option String
deriving DecidableEq

/-- One hexadecimal digit as json.dumps prints it (lowercase). -/
def hexDigitL (n : Nat) : Char :=
  if n < 10 then Char.ofNat (48 + n) else Char.ofNat (87 + n)

/-- Four lowercase hex digits. -/
def hex4 (n : Nat) : List Char :=
  [hexDigitL (n / 4096 % 16), hexDigitL (n / 256 % 16), hexDigitL (n / 16 % 16), hexDigitL (n % 16)]

/-- `json.dumps` escaping of one character with the default
`ensure_ascii=True`: printable ASCII passes through, the two-character
escapes are used where JSON defines them, everything else becomes
`\uXXXX` (a surrogate pair beyond the BMP). -/
def jsonEscChar (c : Char) : List Char :=
  if c = '"' then ['\\', '"']
  else if c = '\\' then ['\\', '\\']
  else if c = '\n' then ['\\', 'n']
  else if c = '\t' then ['\\', 't']
  else if c = '\r' then ['\\', 'r']
  else if c.toNat = 8 then ['\\', 'b']
  else if c.toNat = 12 then ['\\', 'f']
  else if 32 ≤ c.toNat ∧ c.toNat < 127 then [c]
  else if c.toNat < 65536 then '\\' :: 'u' :: hex4 c.toNat
  else
    ('\\' :: 'u' :: hex4 (55296 + (c.toNat - 65536) / 1024))
      ++ ('\\' :: 'u' :: hex4 (56320 + (c.toNat - 65536) % 1024))

/-- `json.dumps` of a string. -/
def pyJsonStr (s : String) : String :=
  ⟨'"' :: s.data.flatMap jsonEscChar ++ ['"']⟩

/-- `json.dumps({"content": content, "to_addr": to_addr})` with the default
separators and Python 3 insertion-ordered dict keys. -/
def dumpsMessage (content to_addr : String) : String :=
  "\x7b\"content\": " ++ pyJsonStr content ++ ", \"to_addr\": " ++ pyJsonStr to_addr ++ "\x7d"

/-- The single request `Sender.send` constructs: a PUT on
`{api_url}/{conversation_key}/messages.json`, basic-auth'd with the account
key and conversation token, with the JSON message body; no bearer token. -/
def sendRequest (s : Sender) (to_addr content : String) : SentRequest :=
  { method := "PUT"
    url := s.api_url ++ "/" ++ s.conversation_key ++ "/messages.json"
    basicAuth := some (s.account_key, s.conversation_token)
    bearerToken := none
    body := some (dumpsMessage content to_addr) }

/-- `Sender.send`: perform the one PUT, then `raise_for_status` and
`r.json()` exactly as the request executor does.  Returns the requests made
(exactly one) and the decoded result. -/
def send {β : Type} (s : Sender) (to_addr content : String)
    (transport : SentRequest → Except String (HttpResponse β)) :
    List SentRequest × Except ApiError β :=
  let req := sendRequest s to_addr content
  ([req], apiRequest (transport req))

/-! Concrete servers used as evaluation inputs for witnesses and
counterexamples. -/

/-- A chained two-page server: first page items 1, 2 with cursor c1, second
page item 3 with null cursor. -/
def fetchTwoPages (p : Option String) : Except ApiError (PageJson Nat) :=
  match p with
  | none => .ok ⟨[1, 2], some "c1"⟩
  | some c => if c = "c1" then .ok ⟨[3], none⟩ else .error (.httpError 404 "")

/-- A server whose every page is the same final page: two items, null
cursor. -/
def fetchOnePageStop (_p : Option String) : Except ApiError (PageJson Nat) :=
  .ok ⟨[7, 8], none⟩

/-- A server answering an empty page with a non-null cursor to the first
request, and flagging any further request with a distinctive error. -/
def fetchEmptyPageCont (p : Option String) : Except ApiError (PageJson Nat) :=
  match p with
  | none => .ok ⟨[], some "c9"⟩
  | some _ => .error (.networkError "further request observed")

/-- A two-page chained collection whose first page is empty: the first item
lives on the second page. -/
def fetchEmptyFirst (p : Option String) : Except ApiError (PageJson Nat) :=
  match p with
  | none => .ok ⟨[], some "c1"⟩
  | some c => if c = "c1" then .ok ⟨[5], none⟩ else .error (.httpError 404 "")

/-- A server failing every request with HTTP 500. -/
def fetchFailFirst (_p : Option String) : Except ApiError (PageJson Nat) :=
  .error (.httpError 500 "server boom")

/-- A server serving one good page with cursor c1 and failing the second
request with HTTP 503. -/
def fetchFailSecond (p : Option String) : Except ApiError (PageJson Nat) :=
  match p with
  | none => .ok ⟨[1, 2], some "c1"⟩
  | some _ => .error (.httpError 503 "unavailable")

/-- A query backend with one contact matching msisdn=+1555 and nothing
else. -/
def fakeQueryBackend (ps : List (String × String)) : Except ApiError (Option (List Nat)) :=
  if ps = [("query", "msisdn=+1555")] then .ok (some [41]) else .ok (some [])

/-- A fixed 304 Not Modified response whose body parses as JSON. -/
def resp304 : HttpResponse Nat :=
  ⟨304, "\x7b\x7d", .ok 0⟩

/-- A transport answering every request with a 200 response whose body
parses to 3. -/
def okTransport (_req : SentRequest) : Except String (HttpResponse Nat) :=
  .ok ⟨200, "3", .ok 3⟩

/-! ## Theorems -/

/-- C1: according to the claim, a page-fetch failure inside the paginated
listing must be reported as a PagedFailure pairing the cursor about to be
used with the underlying error.  The source of `ContactsApiClient.contacts`
has no try/except: the underlying error (here the `HTTPError` raised by
`raise_for_status`) propagates unwrapped, with no cursor attached —
`PagedException` is defined in exceptions.py but never raised anywhere.
This theorem evaluates the embedded generator at the two failing inputs:
a first-page failure surfaces the raw HTTP 500 error after the single
request with no cursor parameter, and a second-page failure surfaces the
raw HTTP 503 error after requests `[none, some "c1"]` only — so the
no-later-request half of the claim does hold, but no PagedFailure value
exists anywhere in the run result. -/
theorem contacts_failure_unwrapped :
    runGen fetchFailFirst 3 3 (.unstarted none)
      = ([], [none], .failed (.httpError 500 "server boom"))
    ∧ runGen fetchFailSecond 3 5 (.unstarted none)
      = ([1, 2], [none, some "c1"], .failed (.httpError 503 "unavailable")) := by
  exact ⟨by decide, by decide⟩

/-- C4 (amended): the listing is lazy — creating the generator performs no
request, zero consumption performs zero requests, and for every collection
whose first page contains at least one item, pulling only the first item
performs exactly one page request (the amendment: the original claim
quantified over every multi-page collection, but when the first page is
empty with a non-null cursor the first pull already fetches two pages). -/
theorem contacts_lazy_first_item {α : Type}
    (fetch : Option String → Except ApiError (PageJson α)) (sc : Option String)
    (pg : PageJson α) (a : α) (tl : List α) (fuel : Nat)
    (hfetch : fetch (startParam sc) = .ok pg) (hdata : pg.data = a :: tl) :
    (runGen fetch fuel 0 (contacts sc)).2.1 = []
    ∧ genNext fetch fuel (contacts sc) = ([startParam sc], .yielded a, .yielding tl pg.cursor)
    ∧ (genNext fetch fuel (contacts sc)).1.length = 1 := by
  refine ⟨rfl, ?_, ?_⟩ <;>
    simp [contacts, genNext, hfetch, emitOrAdvance, hdata]

/-- C4 witness: on the concrete two-page server, pulling the first item
makes exactly the one request with no cursor parameter and yields item 1. -/
theorem contacts_lazy_first_item_witness :
    genNext fetchTwoPages 1 (contacts none) = ([none], .yielded 1, .yielding [2] (some "c1")) := by
  exact (contacts_lazy_first_item fetchTwoPages none ⟨[1, 2], some "c1"⟩ 1 [2] 1 rfl rfl).2.1

/-- C4 counterexample: a correctly chained two-page collection whose first
page is empty.  Pulling the first item yields it but performs two page
requests, not one, refuting the claim as stated. -/
theorem lazy_first_item_counterexample :
    (genNext fetchEmptyFirst 3 (.unstarted none)).2.1 = .yielded 5
    ∧ (genNext fetchEmptyFirst 3 (.unstarted none)).1 = [none, some "c1"]
    ∧ (genNext fetchEmptyFirst 3 (.unstarted none)).1.length ≠ 1 := by
  exact ⟨by decide, by decide, by decide⟩

/-- C5 (amended): the request executor raises an HttpError carrying the
status code exactly for statuses in [400, 600) — the range
`raise_for_status` checks — and parses the body as JSON for every other
status, in particular the whole of [200, 300) as the claim states (the
amendment: statuses outside [200, 300) but also outside [400, 600), such as
a 304 reaching the client, are parsed as success rather than raised). -/
theorem api_request_status_handling {β : Type} (r : HttpResponse β) :
    (200 ≤ r.status ∧ r.status < 300 → apiRespond r = decodeBody r)
    ∧ (400 ≤ r.status ∧ r.status < 600 →
        apiRespond r = .error (.httpError r.status r.rawBody))
    ∧ (¬ (400 ≤ r.status ∧ r.status < 600) → apiRespond r = decodeBody r) := by
  refine ⟨fun h => ?_, fun h => ?_, fun h => ?_⟩
  · have hn : ¬ (400 ≤ r.status ∧ r.status < 600) := by omega
    simp [apiRespond, raiseForStatus, hn]
  · simp [apiRespond, raiseForStatus, h]
  · simp [apiRespond, raiseForStatus, h]

/-- C5 witness: a 204 response parses to its JSON value; a 404 response
raises an HttpError carrying 404 and the raw body. -/
theorem api_request_status_handling_witness :
    apiRespond (⟨204, "", .ok 42⟩ : HttpResponse Nat) = .ok 42
    ∧ apiRespond (⟨404, "nf", .ok 42⟩ : HttpResponse Nat) = .error (.httpError 404 "nf") := by
  constructor
  · exact ((api_request_status_handling (⟨204, "", .ok 42⟩ : HttpResponse Nat)).1
      (by decide)).trans rfl
  · exact (api_request_status_handling (⟨404, "nf", .ok 42⟩ : HttpResponse Nat)).2.1 (by decide)

/-- C5 counterexample: a 304 response — status outside [200, 300) — is not
turned into an HttpError as the claim requires: the body is parsed and
returned as success. -/
theorem api_request_3xx_counterexample :
    resp304.status = 304
    ∧ ¬ (200 ≤ resp304.status ∧ resp304.status < 300)
    ∧ apiRespond resp304 = .ok 0
    ∧ (Except.ok 0 : Except ApiError Nat) ≠ .error (.httpError 304 "\x7b\x7d") := by
  exact ⟨rfl, by decide, by decide, by decide⟩

/-- C6 (amended): the cursor is interpolated verbatim into the page URL —
the request path is the base joined with `/contacts/` and
`?cursor=<cursor>` with the raw cursor string appended, no URL escaping
applied. -/
theorem contacts_cursor_sent_verbatim (c : ContactsApiClient) (cur : String) :
    (contactsPageUrl c (some cur)).data
      = c.api_url.data ++ ("/contacts/?cursor=".data ++ cur.data) := by
  simp [contactsPageUrl, apiRequestUrl, pathOfParam, cursorQueryPath]

/-- C6 counterexample: the cursor `a&b` — `&` is special in URLs — is sent
as `?cursor=a&b`, which differs from the URL-escaped form `?cursor=a%26b`
the claim requires, so the opaque cursor string is not transmitted intact
as a single query parameter value. -/
theorem cursor_escaping_counterexample :
    cursorQueryPath "a&b" = "?cursor=a&b"
    ∧ urlQuote "a&b" = "a%26b"
    ∧ cursorQueryPath "a&b" ≠ "?cursor=" ++ urlQuote "a&b" := by
  exact ⟨by decide, by decide, by decide⟩

/-- C7 (amended): at construction every trailing slash of the supplied base
URL is stripped (Python `rstrip('/')`), so the stored URL is the longest
prefix of the input with no trailing slash: the input is the stored URL
followed by some number of slashes, and the stored URL never ends in a
slash. -/
theorem api_url_rstrip_all (auth u : String) :
    (mkContactsApiClient auth (some u)).api_url = rstripSlash u
    ∧ (∃ k, u.data = (rstripSlash u).data ++ List.replicate k '/')
    ∧ ∀ ch, (rstripSlash u).data.getLast? = some ch → ch ≠ '/' := by
  refine ⟨rfl, ⟨(u.data.reverse.takeWhile (fun c => c == '/')).length, ?_⟩, ?_⟩
  · conv_lhs => rw [← u.data.reverse_reverse,
      ← List.takeWhile_append_dropWhile (fun c => c == '/') u.data.reverse]
    rw [List.reverse_append]
    have hrep : (u.data.reverse.takeWhile (fun c => c == '/'))
        = List.replicate (u.data.reverse.takeWhile (fun c => c == '/')).length '/' := by
      apply List.eq_replicate_length.mpr
      intro b hb
      have := List.mem_takeWhile_imp hb
      simpa using this
    rw [rstripSlash]
    conv_lhs => rw [hrep, List.reverse_replicate]
  · intro ch hch
    have h := List.head?_dropWhile_not (fun c => c == '/') u.data.reverse
    rw [rstripSlash] at hch
    simp only [List.getLast?_reverse] at hch
    rw [hch] at h
    simpa using h

/-- C7 witness: for the input `a//`, the stored URL is `a`, the input
decomposes as `a` followed by two slashes, and `a` does not end in a
slash. -/
theorem api_url_rstrip_all_witness :
    (mkContactsApiClient "t" (some "a//")).api_url = rstripSlash "a//"
    ∧ (∃ k, "a//".data = (rstripSlash "a//").data ++ List.replicate k '/')
    ∧ ∀ ch, (rstripSlash "a//").data.getLast? = some ch → ch ≠ '/' := by
  exact api_url_rstrip_all "t" "a//"

/-- C7 counterexample: for a base URL ending in a double slash the code
strips both slashes, while the claim requires exactly one stripped (a
result still ending in a slash). -/
theorem rstrip_double_slash_counterexample :
    (mkContactsApiClient "t" (some "http://x//")).api_url = "http://x"
    ∧ (mkContactsApiClient "t" (some "http://x//")).api_url ≠ "http://x/" := by
  exact ⟨by decide, by decide⟩

/-- C8: `get_contact_from_field` issues exactly one query-filtered list
request with parameter `query = "<field>=<value>"`; when the returned data
list is non-empty it returns exactly its first record, and when the list is
empty it fails with the IndexError-class lookup failure rather than
returning a default. -/
theorem get_contact_from_field_first {α : Type}
    (doRequest : List (String × String) → Except ApiError (Option (List α)))
    (fld value : String) (xs : List α)
    (h : doRequest [("query", fld ++ "=" ++ value)] = .ok (some xs)) :
    (get_contact_from_field doRequest fld value).1 = [[("query", fld ++ "=" ++ value)]]
    ∧ (∀ a tl, xs = a :: tl → (get_contact_from_field doRequest fld value).2 = .found a)
    ∧ (xs = [] → (get_contact_from_field doRequest fld value).2 = .indexError) := by
  refine ⟨rfl, ?_, ?_⟩
  · intro a tl hx
    simp [get_contact_from_field, h, hx]
  · intro hx
    simp [get_contact_from_field, h, hx]

/-- C8 witness: against the fake query backend, msisdn=+1555 with exactly
one match returns that record, and msisdn=+200 with zero matches fails with
the IndexError-class outcome. -/
theorem get_contact_from_field_witness :
    (get_contact_from_field fakeQueryBackend "msisdn" "+1555").2 = .found 41
    ∧ (get_contact_from_field fakeQueryBackend "msisdn" "+200").2 = .indexError := by
  constructor
  · exact (get_contact_from_field_first fakeQueryBackend "msisdn" "+1555" [41]
      (by decide)).2.1 41 [] rfl
  · exact (get_contact_from_field_first fakeQueryBackend "msisdn" "+200" []
      (by decide)).2.2 rfl

/-- C9: `Sender.send` performs exactly one HTTP PUT on
`{api_url}/{conversation_key}/messages.json` whose body is the JSON
serialization of the content and to_addr mapping, authenticated by basic
auth with the account key and conversation token and carrying no bearer
token, and returns the decoded JSON response on a 2xx status. -/
theorem sender_send_single_put {β : Type} (s : Sender) (to_addr content : String)
    (transport : SentRequest → Except String (HttpResponse β)) (r : HttpResponse β) (v : β)
    (ht : transport (sendRequest s to_addr content) = .ok r)
    (hs : 200 ≤ r.status ∧ r.status < 300) (hj : r.jsonBody = .ok v) :
    (send s to_addr content transport).1 = [sendRequest s to_addr content]
    ∧ (sendRequest s to_addr content).method = "PUT"
    ∧ (sendRequest s to_addr content).url
        = s.api_url ++ "/" ++ s.conversation_key ++ "/messages.json"
    ∧ (sendRequest s to_addr content).basicAuth = some (s.account_key, s.conversation_token)
    ∧ (sendRequest s to_addr content).bearerToken = none
    ∧ (sendRequest s to_addr content).body = some (dumpsMessage content to_addr)
    ∧ (send s to_addr content transport).2 = .ok v := by
  have hn : ¬ (400 ≤ r.status ∧ r.status < 600) := by omega
  refine ⟨rfl, rfl, rfl, rfl, rfl, rfl, ?_⟩
  simp [send, apiRequest, ht, apiRespond, raiseForStatus, hn, decodeBody, hj]

/-- C9 witness: a concrete send against a 200-transport returns the decoded
value 3. -/
theorem sender_send_single_put_witness :
    (send ⟨"http://api", "acc", "conv", "tok"⟩ "+123" "hi" okTransport).2 = .ok 3 := by
  exact (sender_send_single_put ⟨"http://api", "acc", "conv", "tok"⟩ "+123" "hi"
    okTransport ⟨200, "3", .ok 3⟩ 3 rfl (by decide) rfl).2.2.2.2.2.2

/-- C10: the listing distinguishes a supplied start cursor by Python
truthiness: the empty string behaves exactly like an absent cursor — the
first page request carries no cursor parameter and the whole first
`next()` behaves identically — while a non-empty cursor is sent as the
cursor parameter. -/
theorem contacts_start_cursor_truthiness {α : Type}
    (fetch : Option String → Except ApiError (PageJson α)) (fuel : Nat) :
    startParam (some "") = none
    ∧ pathOfParam (startParam (some "")) = ""
    ∧ genNext fetch fuel (.unstarted (some "")) = genNext fetch fuel (.unstarted none)
    ∧ ∀ s : String, s ≠ "" → startParam (some s) = some s
        ∧ pathOfParam (startParam (some s)) = "?cursor=" ++ s := by
  refine ⟨rfl, rfl, rfl, ?_⟩
  intro s hs
  simp [startParam, pathOfParam, cursorQueryPath, hs]

/-- While items remain pending on the current page, each next() call yields
one item and makes no request: the run decomposes into the pending items
followed by the run from the exhausted page. -/
theorem runGen_peel {α : Type} (fetch : Option String → Except ApiError (PageJson α))
    (fuel : Nat) (pending : List α) (k : Nat) (cur : Option String) :
    runGen fetch fuel (pending.length + k) (.yielding pending cur)
      = (pending ++ (runGen fetch fuel k (.yielding [] cur)).1,
         (runGen fetch fuel k (.yielding [] cur)).2) := by
  induction pending with
  | nil => simp
  | cons a tl ih =>
    have hlen : (a :: tl).length + k = (tl.length + k) + 1 := by
      simp [List.length_cons]
      omega
    rw [hlen]
    simp only [runGen, genNext, emitOrAdvance]
    rw [ih]
    simp

/-- Over a chained server, advancing from an exhausted page is described by
`chainEmit`, for any sufficient fuel. -/
theorem emitOrAdvance_chain {α : Type} (fetch : Option String → Except ApiError (PageJson α)) :
    ∀ (pages : List (PageJson α)) (cur : Option String) (fe : Nat),
      TailChain fetch cur pages →
      emitOrAdvance fetch (pages.length + fe) [] cur = chainEmit cur pages := by
  intro pages
  induction pages with
  | nil =>
    intro cur fe h
    cases cur with
    | none => simp [emitOrAdvance, chainEmit]
    | some c => exact absurd h (by simp [TailChain])
  | cons pg rest ih =>
    intro cur fe h
    cases cur with
    | none => exact absurd h (by simp [TailChain])
    | some c =>
      obtain ⟨hf, htl⟩ := h
      have hlen : (pg :: rest).length + fe = (rest.length + fe) + 1 := by
        simp [List.length_cons]
        omega
      rw [hlen]
      rcases hd : pg.data with _ | ⟨a, tl⟩
      · have hrec := ih pg.cursor fe htl
        simp only [emitOrAdvance, chainEmit]
        rw [hf]
        simp [hd, hrec]
      · simp only [emitOrAdvance, chainEmit]
        rw [hf]
        simp [hd, emitOrAdvance]

/-- If one state's next() result equals another's with one extra leading
request, their runs agree up to that one extra request. -/
theorem runGen_step_prepend {α : Type} (fetch : Option String → Except ApiError (PageJson α))
    (fuel : Nat) (st stB : GenState α) (q : Option String)
    (h : genNext fetch fuel st
      = (q :: (genNext fetch fuel stB).1, (genNext fetch fuel stB).2)) (n : Nat) :
    runGen fetch fuel (n + 1) st
      = ((runGen fetch fuel (n + 1) stB).1,
         q :: (runGen fetch fuel (n + 1) stB).2.1,
         (runGen fetch fuel (n + 1) stB).2.2) := by
  rcases hg : genNext fetch fuel stB with ⟨reqs, out, stN⟩
  rw [hg] at h
  rcases out with a | _ | e | _
  · simp only [runGen]
    rw [h, hg]
    rcases hr : runGen fetch fuel n stN with ⟨items, rest⟩
    simp
  · simp only [runGen]
    rw [h, hg]
  · simp only [runGen]
    rw [h, hg]
  · simp only [runGen]
    rw [h, hg]

/-- Full consumption starting from an exhausted page over a chained server:
all remaining items are yielded in order, each remaining page is requested
exactly once with the cursor of its predecessor, and the run completes. -/
theorem runGen_chain {α : Type} (fetch : Option String → Except ApiError (PageJson α)) :
    ∀ (pages : List (PageJson α)) (cur : Option String) (fe e : Nat),
      TailChain fetch cur pages →
      runGen fetch (pages.length + fe)
          (((pages.map PageJson.data).flatten).length + 1 + e) (.yielding [] cur)
        = ((pages.map PageJson.data).flatten, tailParams cur pages, .completed) := by
  intro pages
  induction pages with
  | nil =>
    intro cur fe e h
    cases cur with
    | none =>
      have hs : (((List.map PageJson.data ([] : List (PageJson α))).flatten).length + 1 + e)
          = e + 1 := by
        simp
        omega
      rw [hs]
      simp [runGen, genNext, emitOrAdvance, tailParams]
    | some c => exact absurd h (by simp [TailChain])
  | cons pg rest ih =>
    intro cur fe e h
    cases cur with
    | none => exact absurd h (by simp [TailChain])
    | some c =>
      obtain ⟨hf, htl⟩ := h
      have hfuel : (pg :: rest).length + fe = rest.length + (fe + 1) := by
        simp [List.length_cons]
        omega
      rcases hd : pg.data with _ | ⟨a, tl⟩
      · -- empty page: one extra leading request, then as for the rest
        have e1 : emitOrAdvance fetch ((pg :: rest).length + fe) [] (some c)
            = chainEmit (some c) (pg :: rest) :=
          emitOrAdvance_chain fetch (pg :: rest) (some c) fe ⟨hf, htl⟩
        have e2 : emitOrAdvance fetch ((pg :: rest).length + fe) [] pg.cursor
            = chainEmit pg.cursor rest := by
          rw [hfuel]
          exact emitOrAdvance_chain fetch rest pg.cursor (fe + 1) htl
        have hrel : genNext fetch ((pg :: rest).length + fe) (.yielding ([] : List α) (some c))
            = (some c
                :: (genNext fetch ((pg :: rest).length + fe)
                    (.yielding ([] : List α) pg.cursor)).1,
               (genNext fetch ((pg :: rest).length + fe)
                  (.yielding ([] : List α) pg.cursor)).2) := by
          simp only [genNext]
          rw [e1, e2]
          simp [chainEmit, hd]
        have hsteps : ((((pg :: rest).map PageJson.data).flatten).length + 1 + e)
            = ((((rest).map PageJson.data).flatten).length + e) + 1 := by
          simp [hd]
          omega
        rw [hsteps]
        rw [runGen_step_prepend fetch ((pg :: rest).length + fe) _ _ (some c) hrel
          ((((rest).map PageJson.data).flatten).length + e)]
        have hsteps2 : ((((rest).map PageJson.data).flatten).length + e) + 1
            = (((rest.map PageJson.data).flatten).length + 1 + e) := by
          omega
        rw [hsteps2, hfuel]
        rw [ih pg.cursor (fe + 1) e htl]
        simp [hd, tailParams]
      · -- first remaining page has an item: yield it, then peel and recurse
        have hfuel2 : (pg :: rest).length + fe = (rest.length + fe) + 1 := by
          simp [List.length_cons]
          omega
        have hnext : genNext fetch ((pg :: rest).length + fe)
            (.yielding ([] : List α) (some c))
            = ([some c], .yielded a, .yielding tl pg.cursor) := by
          rw [hfuel2]
          simp only [genNext, emitOrAdvance]
          rw [hf]
          simp [hd, emitOrAdvance]
        have hsteps : ((((pg :: rest).map PageJson.data).flatten).length + 1 + e)
            = (tl.length + (((rest.map PageJson.data).flatten).length + 1 + e)) + 1 := by
          simp [hd]
          omega
        rw [hsteps]
        simp only [runGen, hnext]
        rw [runGen_peel fetch ((pg :: rest).length + fe) tl
          (((rest.map PageJson.data).flatten).length + 1 + e) pg.cursor]
        rw [hfuel]
        rw [ih pg.cursor (fe + 1) e htl]
        simp [hd, tailParams]

/-- The chained request list has exactly one entry per page. -/
theorem tailParams_length {α : Type} :
    ∀ (pages : List (PageJson α)) (cur : Option String),
      (tailParams cur pages).length = pages.length := by
  intro pages
  induction pages with
  | nil => intro cur; rfl
  | cons pg rest ih =>
    intro cur
    simp [tailParams, ih]

/-- Full consumption of the generator from its unstarted state over a
chained server: the run yields the concatenation of all page items, makes
one request per page (the first with the start parameter, each further one
with the cursor of the preceding page), and completes. -/
theorem runGen_servesFrom {α : Type} (fetch : Option String → Except ApiError (PageJson α))
    (sc : Option String) (pages : List (PageJson α)) (fe e : Nat)
    (h : ServesFrom fetch (startParam sc) pages) :
    runGen fetch (pages.length + fe)
        (((pages.map PageJson.data).flatten).length + 1 + e) (.unstarted sc)
      = ((pages.map PageJson.data).flatten, tailParams (startParam sc) pages, .completed) := by
  cases pages with
  | nil => exact absurd h (by simp [ServesFrom])
  | cons pg rest =>
    obtain ⟨hf, htl⟩ := h
    have hfuel : (pg :: rest).length + fe = rest.length + (fe + 1) := by
      simp [List.length_cons]
      omega
    rcases hd : pg.data with _ | ⟨a, tl⟩
    · -- empty first page: same requests as running from the exhausted page,
      -- with the start parameter prepended
      have hrel : genNext fetch ((pg :: rest).length + fe) (.unstarted sc)
          = (startParam sc
              :: (genNext fetch ((pg :: rest).length + fe)
                  (.yielding ([] : List α) pg.cursor)).1,
             (genNext fetch ((pg :: rest).length + fe)
                (.yielding ([] : List α) pg.cursor)).2) := by
        simp only [genNext]
        rw [hf]
        simp [hd]
      have hsteps : ((((pg :: rest).map PageJson.data).flatten).length + 1 + e)
          = ((((rest).map PageJson.data).flatten).length + e) + 1 := by
        simp [hd]
        omega
      rw [hsteps]
      rw [runGen_step_prepend fetch ((pg :: rest).length + fe) _ _ (startParam sc) hrel
        ((((rest).map PageJson.data).flatten).length + e)]
      have hsteps2 : ((((rest).map PageJson.data).flatten).length + e) + 1
          = (((rest.map PageJson.data).flatten).length + 1 + e) := by
        omega
      rw [hsteps2, hfuel]
      rw [runGen_chain fetch rest pg.cursor (fe + 1) e htl]
      simp [hd, tailParams]
    · have hnext : genNext fetch ((pg :: rest).length + fe) (.unstarted sc)
          = ([startParam sc], .yielded a, .yielding tl pg.cursor) := by
        simp only [genNext]
        rw [hf]
        simp [hd, emitOrAdvance]
      have hsteps : ((((pg :: rest).map PageJson.data).flatten).length + 1 + e)
          = (tl.length + (((rest.map PageJson.data).flatten).length + 1 + e)) + 1 := by
        simp [hd]
        omega
      rw [hsteps]
      simp only [runGen, hnext]
      rw [runGen_peel fetch ((pg :: rest).length + fe) tl
        (((rest.map PageJson.data).flatten).length + 1 + e) pg.cursor]
      rw [hfuel]
      rw [runGen_chain fetch rest pg.cursor (fe + 1) e htl]
      simp [hd, tailParams]

/-- C2: over every correctly chained sequence of N pages, fully consuming
the listing yields exactly the concatenation of the page items in
server-returned order and performs exactly N page requests — the first with
the start parameter and each further one with the cursor returned by the
preceding page — so distinct server items are never yielded twice and
distinct requests are never repeated. -/
theorem contacts_iterate_all_complete {α : Type}
    (fetch : Option String → Except ApiError (PageJson α)) (sc : Option String)
    (pages : List (PageJson α)) (fe e : Nat)
    (h : ServesFrom fetch (startParam sc) pages) :
    runGen fetch (pages.length + fe)
        (((pages.map PageJson.data).flatten).length + 1 + e) (.unstarted sc)
      = ((pages.map PageJson.data).flatten, tailParams (startParam sc) pages, .completed)
    ∧ (tailParams (startParam sc) pages).length = pages.length
    ∧ (((pages.map PageJson.data).flatten).Nodup →
        (runGen fetch (pages.length + fe)
          (((pages.map PageJson.data).flatten).length + 1 + e) (.unstarted sc)).1.Nodup)
    ∧ ((tailParams (startParam sc) pages).Nodup →
        (runGen fetch (pages.length + fe)
          (((pages.map PageJson.data).flatten).length + 1 + e) (.unstarted sc)).2.1.Nodup) := by
  have hrun := runGen_servesFrom fetch sc pages fe e h
  refine ⟨hrun, tailParams_length pages (startParam sc), ?_, ?_⟩
  · intro hnd
    rw [hrun]
    exact hnd
  · intro hnd
    rw [hrun]
    exact hnd

/-- C2 witness: consuming the concrete chained two-page collection yields
1, 2, 3 in order, with exactly the two requests none and c1, and
completes. -/
theorem contacts_iterate_all_complete_witness :
    runGen fetchTwoPages 2 4 (.unstarted none) = ([1, 2, 3], [none, some "c1"], .completed) := by
  exact (contacts_iterate_all_complete fetchTwoPages none
    [⟨[1, 2], some "c1"⟩, ⟨[3], none⟩] 0 0 ⟨rfl, rfl, trivial⟩).1

/-- C3: the nullity of the fetched page cursor alone decides termination:
after any fetched page with null cursor the remaining items (possibly
non-empty) are yielded and the run completes with zero further requests,
for any fuel; and after any fetched page with empty items but cursor `c`,
the very next pull issues the request for cursor `c`. -/
theorem contacts_termination_iff_null_cursor {α : Type}
    (fetch : Option String → Except ApiError (PageJson α)) :
    (∀ (pending : List α) (fuel e : Nat),
        runGen fetch fuel (pending.length + (1 + e)) (.yielding pending none)
          = (pending, [], .completed))
    ∧ (∀ (c : String) (fe : Nat),
        (genNext fetch (fe + 1) (.yielding ([] : List α) (some c))).1.head?
          = some (some c)) := by
  constructor
  · intro pending fuel e
    rw [runGen_peel fetch fuel pending (1 + e) none]
    have h0 := runGen_chain fetch [] none fuel e trivial
    simp only [List.length_nil, List.map_nil, List.flatten_nil, Nat.zero_add] at h0
    rw [h0]
    simp [tailParams]
  · intro c fe
    rcases hf : fetch (some c) with er | pg
    · simp [genNext, emitOrAdvance, hf]
    · simp [genNext, emitOrAdvance, hf]

/-- C3 witness: a page with two remaining items and null cursor completes
after yielding them with no further request; a fetched page with empty
items and cursor c9 triggers the request for c9 on the next pull. -/
theorem contacts_termination_iff_null_cursor_witness :
    runGen fetchOnePageStop 0 3 (.yielding [7, 8] none) = ([7, 8], [], .completed)
    ∧ (genNext fetchEmptyPageCont 1 (.yielding ([] : List Nat) (some "c9"))).1.head?
        = some (some "c9") := by
  constructor
  · exact (contacts_termination_iff_null_cursor fetchOnePageStop).1 [7, 8] 0 0
  · exact (contacts_termination_iff_null_cursor fetchEmptyPageCont).2 "c9" 0

/-- C10 witness: the empty start cursor maps to no cursor parameter; the
start cursor `abc` maps to the parameter `abc` and path `?cursor=abc`. -/
theorem contacts_start_cursor_truthiness_witness :
    startParam (some "") = none
    ∧ startParam (some "abc") = some "abc"
    ∧ pathOfParam (startParam (some "abc")) = "?cursor=" ++ "abc" := by
  refine ⟨(contacts_start_cursor_truthiness fetchOnePageStop 0).1, ?_, ?_⟩
  · exact ((contacts_start_cursor_truthiness fetchOnePageStop 0).2.2.2 "abc" (by decide)).1
  · exact ((contacts_start_cursor_truthiness fetchOnePageStop 0).2.2.2 "abc" (by decide)).2

end GoHttp
